import Mathlib

/-!
Verification of the release state derivation and version-extension
calculation core of the CAMARA release automation tooling
(`release_automation/scripts/state_manager.py` and
`release_automation/scripts/version_calculator.py`).

The embedding models Python values flowing through the code as a `Yaml`
inductive (the possible results of `yaml.safe_load`), with Python
truthiness, `dict.get`, indexing, `str.lower`, and the `in` operator
modelled faithfully, including the `AttributeError` / `TypeError` /
`KeyError` exceptions these raise on non-dict / non-str operands
(propagated in an `Except PyErr` result).  The GitHub client used by both
modules is modelled as an abstract structure of query functions
(`GHRepo`), matching the read-only interface the code consumes:
`tag_exists`, `list_branches`, `draft_release_exists`, `get_file_content`,
`get_releases`, `search_issues`, `get_branch_creation_time`,
`find_pr_for_branch`.  The YAML parser itself (`yaml.safe_load`) and
datetime parsing are likewise oracle functions of the environment, since
the code treats them as black boxes.
-/

/-- Result values of `yaml.safe_load`, i.e. the Python values the code
manipulates: `None`, strings, ints, bools, lists and string-keyed dicts. -/
inductive Yaml where
  | null : Yaml
  | str (s : String) : Yaml
  | int (n : Int) : Yaml
  | bool (b : Bool) : Yaml
  | list (xs : List Yaml) : Yaml
  | map (kvs : List (String × Yaml)) : Yaml

/-- Python exceptions raised by the modelled operations. -/
inductive PyErr where
  | attributeError : PyErr
  | typeError : PyErr
  | keyError : PyErr
deriving DecidableEq, Repr

/-- Python truthiness of a value (`if plan:` etc.). -/
def Yaml.truthy : Yaml → Bool
  | .null => false
  | .str s => s ≠ ""
  | .int n => n ≠ 0
  | .bool b => b
  | .list xs => ¬ xs.isEmpty
  | .map kvs => ¬ kvs.isEmpty

/-- Python `d.get(key, default)`: only dicts have `.get`; any other
receiver raises `AttributeError`. -/
def Yaml.getD (y : Yaml) (key : String) (dflt : Yaml) : Except PyErr Yaml :=
  match y with
  | .map kvs =>
    match kvs.lookup key with
    | some v => .ok v
    | none => .ok dflt
  | _ => .error .attributeError

/-- Python `d.get(key)` (missing key gives `None`). -/
def Yaml.get1 (y : Yaml) (key : String) : Except PyErr Yaml :=
  y.getD key .null

/-- Python `d[key]`: `KeyError` when missing, `TypeError`-ish failure on a
non-dict receiver (modelled uniformly as an error). -/
def Yaml.idx (y : Yaml) (key : String) : Except PyErr Yaml :=
  match y with
  | .map kvs =>
    match kvs.lookup key with
    | some v => .ok v
    | none => .error .keyError
  | _ => .error .typeError

/-- ASCII lower-casing of one character (the release types compared
against "none" are ASCII). -/
def charLower (c : Char) : Char :=
  if 'A' ≤ c ∧ c ≤ 'Z' then Char.ofNat (c.toNat + 32) else c

/-- Python `s.lower()` on a string value; `AttributeError` on anything
that is not a string. -/
def Yaml.lower : Yaml → Except PyErr String
  | .str s => .ok (String.mk (s.data.map charLower))
  | _ => .error .attributeError

/-- Python `value == some_string` between an arbitrary value and a
string: only equal strings compare equal, every other value compares
unequal (never raising). -/
def Yaml.eqStr (y : Yaml) (t : String) : Bool :=
  match y with
  | .str s => s = t
  | _ => false

/-- Substring test on character lists: Python `needle in haystack` for
strings (the empty needle is contained in everything). -/
def subL (needle : List Char) : List Char → Bool
  | [] => needle.isEmpty
  | c :: t => needle.isPrefixOf (c :: t) || subL needle t

/-- Python `x in y` where `y` is one of our values: substring test on a
string container, membership by equality on a list container, key
membership on a dict; other containers raise `TypeError`.  The needle is
always a string at the modelled call sites. -/
def Yaml.contains (container : Yaml) (needle : Yaml) : Except PyErr Bool :=
  match container with
  | .str s =>
    match needle with
    | .str n => .ok (subL n.data s.data)
    | _ => .error .typeError
  | .list xs =>
    .ok (xs.any fun x =>
      match x, needle with
      | .str a, .str b => a = b
      | _, _ => false)
  | .map kvs =>
    match needle with
    | .str n => .ok (kvs.any fun kv => kv.1 = n)
    | _ => .error .typeError
  | _ => .error .typeError

/-- Decimal digit characters (used when rendering ints into f-strings). -/
def digitChar : Nat → Char
  | 0 => '0' | 1 => '1' | 2 => '2' | 3 => '3' | 4 => '4'
  | 5 => '5' | 6 => '6' | 7 => '7' | 8 => '8' | _ => '9'

/-- Decimal digits of a natural number, most significant first.  Fuel
makes the recursion structural, so that terms reduce definitionally; any
fuel at least `n + 1` is enough. -/
def natDigitsF : Nat → Nat → List Char
  | 0, _ => []
  | f + 1, n =>
    if n < 10 then [digitChar n]
    else natDigitsF f (n / 10) ++ [digitChar (n % 10)]

/-- Python `str(n)` for a non-negative int. -/
def natStr (n : Nat) : String := String.mk (natDigitsF (n + 1) n)

/-- Python `str(n)` for an int. -/
def intStr (n : Int) : String :=
  if n < 0 then "-" ++ natStr n.natAbs else natStr n.natAbs

/-- Python `str(value)` / f-string interpolation of a value.  The
non-scalar cases only arise for malformed documents; a fixed placeholder
stands in for Python's container repr there. -/
def Yaml.pyStr : Yaml → String
  | .null => "None"
  | .str s => s
  | .int n => intStr n
  | .bool b => if b then "True" else "False"
  | .list _ => "[...]"
  | .map _ => "\x7b...\x7d"

/-- A branch as returned by `GitHubClient.list_branches`. -/
structure Branch where
  name : String
  sha : String
deriving DecidableEq, Repr

/-- A release as returned by `GitHubClient.get_releases`. -/
structure Release where
  tag_name : String
  name : String
  draft : Bool
  prerelease : Bool
  html_url : String
deriving DecidableEq, Repr

/-- A `yaml.safe_load` failure (`yaml.YAMLError`), carrying its message. -/
structure YamlError where
  message : String
deriving DecidableEq, Repr

/-- The environment both modules run against: the read-only repository
query interface of `GitHubClient`, plus the `yaml.safe_load` parser and
datetime facilities, all as abstract oracle functions.  State derivation
is a pure function of this structure. -/
structure GHRepo where
  tagExists : String → Bool
  listBranches : String → List Branch
  draftReleaseExists : String → Bool
  getFileContent : String → String → Option String
  getReleases : Bool → List Release
  searchIssues : List String → String → List Yaml
  getBranchCreationTime : String → Option String
  findPrForBranch : String → Option Int
  safeLoad : String → Except YamlError Yaml
  parseIsoDatetime : String → Option String
  now : String

namespace config

/-- `config.RELEASE_PLAN_FILE`. -/
def RELEASE_PLAN_FILE : String := "release-plan.yaml"

/-- `config.RELEASE_METADATA_FILE`. -/
def RELEASE_METADATA_FILE : String := "release-metadata.yaml"

/-- `config.SNAPSHOT_BRANCH_PREFIX`. -/
def snapshotBranchPfx : String := "release-snapshot/"

/-- `config.RELEASE_REVIEW_BRANCH_PREFIX`. -/
def releaseReviewBranchPfx : String := "release-review/"

end config

/-- Split a character list at every occurrence of `sep` (semantics of
splitting on a one-character separator, as the regex structure below
needs: the pieces never contain `sep` and are rejoined by it). -/
def splitOnC (sep : Char) : List Char → List (List Char)
  | [] => [[]]
  | c :: cs =>
    if c = sep then [] :: splitOnC sep cs
    else
      match splitOnC sep cs with
      | [] => [[c]]
      | p :: ps => (c :: p) :: ps

/-- A nonempty run of decimal digits (regex fragment `\d+`). -/
def isDigits (l : List Char) : Bool := !l.isEmpty && l.all Char.isDigit

/-- A nonempty run of lowercase ASCII letters (regex fragment `[a-z]+`). -/
def isLowerWord (l : List Char) : Bool := !l.isEmpty && l.all Char.isLower

/-- Numeric value of a digit string: Python `int(s)` on a `\d+` match. -/
def digitsVal (l : List Char) : Nat :=
  l.foldl (fun acc c => 10 * acc + (c.toNat - 48)) 0

/-- The three capture groups of the regex fragment `(\d+)\.(\d+)\.(\d+)`
when it matches the whole list (no piece may contain `.` or be empty or
non-numeric, and there must be exactly three pieces). -/
def matchSemverGroups (l : List Char) : Option (List Char × List Char × List Char) :=
  match splitOnC '.' l with
  | [a, b, c] => if isDigits a && isDigits b && isDigits c then some (a, b, c) else none
  | _ => none

/-- The two capture groups of the regex fragment `([a-z]+)\.(\d+)` when it
matches the whole list. -/
def matchPre (l : List Char) : Option (List Char × List Char) :=
  match splitOnC '.' l with
  | [s, e] => if isLowerWord s && isDigits e then some (s, e) else none
  | _ => none

/-- Full match of `^(\d+)\.(\d+)\.(\d+)(?:-([a-z]+)\.(\d+))?$` (the
module-level pattern in `calculate_url_version`).  Neither side of the
optional `-` may contain a further `-`, so the match splits at `-`:
no `-` means the whole list is the `x.y.z` part, one `-` means the tail
must be the `status.ext` part, more than one `-` never matches. -/
def regexFull (l : List Char) :
    Option (List Char × List Char × List Char × Option (List Char × List Char)) :=
  match splitOnC '-' l with
  | [core] => (matchSemverGroups core).map fun g => (g.1, g.2.1, g.2.2, none)
  | [core, pre] =>
    match matchSemverGroups core, matchPre pre with
    | some g, some p => some (g.1, g.2.1, g.2.2, some p)
    | _, _ => none
  | _ => none

/-- Match of `VersionCalculator.VERSION_PATTERN`, i.e.
`^(\d+\.\d+\.\d+)-([a-z]+)\.(\d+)$`; the first capture group is the whole
`x.y.z` prefix as a string. -/
def regexVP (l : List Char) : Option (List Char × List Char × List Char) :=
  match splitOnC '-' l with
  | [core, pre] =>
    match matchSemverGroups core, matchPre pre with
    | some _, some p => some (core, p.1, p.2)
    | _, _ => none
  | _ => none

/-- `version_calculator.calculate_url_version`: URL version component per
the CAMARA API Design Guide.  Note that the code converts only the major
capture group with `int(...)` and re-renders it in `f"v{major}"`, while
the minor capture group is spliced verbatim into `f"v0.{minor}"`. -/
def calculate_url_version (api_version : String) : String :=
  if api_version = "wip" then "vwip"
  else
    match regexFull api_version.data with
    | none => "vwip"
    | some (majS, minS, _patS, pre) =>
      let major := digitsVal majS
      let base := if major = 0 then "v0." ++ String.mk minS else "v" ++ natStr major
      match pre with
      | some (st, ext) => base ++ String.mk st ++ String.mk ext
      | none => base

namespace VersionCalculator

/-- `VersionCalculator._parse_extension`: extension number of `version`
if it has the target status and falls in the same URL-version collision
namespace as `target_version`, else `None`. -/
def parse_extension (version target_version target_status : String) : Option Nat :=
  match regexVP version.data with
  | none => none
  | some (baseS, stS, extS) =>
    if String.mk stS ≠ target_status then none
    else
      let existing_url := calculate_url_version (String.mk baseS ++ "-" ++ String.mk stS ++ ".1")
      let target_url := calculate_url_version (target_version ++ "-" ++ String.mk stS ++ ".1")
      if existing_url = target_url then some (digitsVal extS) else none

/-- `VersionCalculator._read_release_metadata`: read
`release-metadata.yaml` at a tag; `None` when the file is missing or
empty (`if not content`) or fails to parse. -/
def read_release_metadata (repo : GHRepo) (tag : String) : Option Yaml :=
  match repo.getFileContent config.RELEASE_METADATA_FILE tag with
  | none => none
  | some content =>
    if content = "" then none
    else
      match repo.safeLoad content with
      | .ok y => some y
      | .error _ => none

/-- Inner loop of `find_existing_extensions` over one release's
`apis` entries: skip entries of other APIs, parse the extension from the
matching entries' versions.  `api.get(...)` raises on a non-dict entry
and `re.match` raises `TypeError` on a non-string version, as in
Python. -/
def scanApis (api_name target_version target_status : String) :
    List Yaml → List Nat → Except PyErr (List Nat)
  | [], acc => .ok acc
  | api :: rest, acc =>
    match api.get1 "api_name" with
    | .error er => .error er
    | .ok nameV =>
      if ¬ nameV.eqStr api_name then scanApis api_name target_version target_status rest acc
      else
        match api.getD "api_version" (.str "") with
        | .error er => .error er
        | .ok verV =>
          match verV with
          | .str verS =>
            match parse_extension verS target_version target_status with
            | some e => scanApis api_name target_version target_status rest (acc ++ [e])
            | none => scanApis api_name target_version target_status rest acc
          | _ => .error .typeError

/-- Python iteration `for api in apis:`: lists yield elements, strings
yield one-character strings, dicts yield their keys, scalars raise
`TypeError`. -/
def Yaml.iter : Yaml → Except PyErr (List Yaml)
  | .list xs => .ok xs
  | .str s => .ok (s.data.map fun c => .str (String.mk [c]))
  | .map kvs => .ok (kvs.map fun kv => .str kv.1)
  | _ => .error .typeError

/-- One release's contribution in `find_existing_extensions`: a release
whose metadata is missing, unparseable, or falsy is skipped
(`if not metadata: continue`); otherwise its `apis` entries are
scanned. -/
def scanRelease (repo : GHRepo) (api_name target_version target_status : String)
    (acc : List Nat) (rel : Release) : Except PyErr (List Nat) :=
  match read_release_metadata repo rel.tag_name with
  | none => .ok acc
  | some m =>
    if ¬ m.truthy then .ok acc
    else
      match m.getD "apis" (.list []) with
      | .error er => .error er
      | .ok apis =>
        match Yaml.iter apis with
        | .error er => .error er
        | .ok items => scanApis api_name target_version target_status items acc

/-- The release loop of `find_existing_extensions` over an explicit
release list. -/
def scanReleases (repo : GHRepo) (api_name target_version target_status : String) :
    List Release → List Nat → Except PyErr (List Nat)
  | [], acc => .ok acc
  | rel :: rest, acc =>
    match scanRelease repo api_name target_version target_status acc rel with
    | .error er => .error er
    | .ok acc2 => scanReleases repo api_name target_version target_status rest acc2

/-- `VersionCalculator.find_existing_extensions`: all extension numbers
already used in published releases for this API within the target's
URL-version collision namespace, in release order. -/
def find_existing_extensions (repo : GHRepo)
    (api_name target_version target_status : String) : Except PyErr (List Nat) :=
  scanReleases repo api_name target_version target_status (repo.getReleases false) []

/-- Python `max(l)` for a nonempty list of naturals
(`max(existing)` in `calculate_version`). -/
def maxNat (l : List Nat) : Nat := l.foldl Nat.max 0

/-- `VersionCalculator.calculate_version`: the full version string with
extension; public releases pass the base version through unchanged. -/
def calculate_version (repo : GHRepo)
    (api_name target_version target_status : String) : Except PyErr String :=
  if target_status = "public" then .ok target_version
  else
    match find_existing_extensions repo api_name target_version target_status with
    | .error er => .error er
    | .ok existing =>
      let next_ext := if existing.isEmpty then 1 else maxNat existing + 1
      .ok (target_version ++ "-" ++ target_status ++ "." ++ natStr next_ext)

end VersionCalculator

/-- Python `s.replace(old, new)` (all non-overlapping occurrences,
left to right), with structural fuel so that terms reduce; the modelled
call sites always pass a nonempty `old`. -/
def replaceF (old new : List Char) : Nat → List Char → List Char
  | 0, l => l
  | _ + 1, [] => []
  | f + 1, c :: rest =>
    if old.isPrefixOf (c :: rest) then
      new ++ replaceF old new f (List.drop (old.length - 1) rest)
    else c :: replaceF old new f rest

/-- Python `s.replace(old, new)` on strings. -/
def pyReplace (s old new : String) : String :=
  String.mk (replaceF old.data new.data s.data.length s.data)

/-- `Yaml.isMap`: `isinstance(x, dict)`. -/
def Yaml.isMap : Yaml → Bool
  | .map _ => true
  | _ => false

/-- `state_manager.ReleaseState` (the five lifecycle states; their string
values come from `config`: planned, snapshot-active, draft-ready,
published, not-planned). -/
inductive ReleaseState where
  | PLANNED
  | SNAPSHOT_ACTIVE
  | DRAFT_READY
  | PUBLISHED
  | NOT_PLANNED
deriving DecidableEq, Repr

/-- `state_manager.SnapshotInfo`.  Fields populated from parsed YAML keep
the `Yaml` type since the document content is unconstrained. -/
structure SnapshotInfo where
  snapshot_id : String
  snapshot_branch : String
  release_review_branch : String
  src_commit_sha : Yaml
  created_at : String
  release_pr_number : Option Int
  release_type : Yaml
  apis : Yaml
  commonalities_release : Yaml
  identity_consent_management_release : Yaml

/-- `state_manager.ConfigurationError`. -/
structure ConfigurationError where
  error_type : String
  message : String
  file_path : String
  field_path : Option String := none
deriving DecidableEq, Repr

/-- `state_manager.ReleaseInfoResult`.  `release_issue_number` and
`release_type` hold whatever Python value was attached (with `Yaml.null`
for Python `None`). -/
structure ReleaseInfoResult where
  success : Bool
  release_tag : Option Yaml := none
  state : Option ReleaseState := none
  snapshot_branch : Option String := none
  source : Option String := none
  config_error : Option ConfigurationError := none
  release_issue_number : Yaml := .null
  release_type : Yaml := .null

namespace ReleaseStateManager

/-- `state_manager.WORKFLOW_MARKER`. -/
def WORKFLOW_MARKER : String := "<!-- release-automation:workflow-owned -->"

/-- `state_manager.RELEASE_ISSUE_LABEL`. -/
def RELEASE_ISSUE_LABEL : String := "release-issue"

/-- `ReleaseStateManager._read_release_plan`: `None` when the file is
missing or empty (`if not content`) or fails to parse; otherwise whatever
`yaml.safe_load` produced. -/
def read_release_plan (repo : GHRepo) (ref : String) : Option Yaml :=
  match repo.getFileContent config.RELEASE_PLAN_FILE ref with
  | none => none
  | some content =>
    if content = "" then none
    else
      match repo.safeLoad content with
      | .ok y => some y
      | .error _ => none

/-- `ReleaseStateManager._read_release_metadata` (same reading pattern as
the plan, for `release-metadata.yaml` at an arbitrary ref). -/
def read_release_metadata (repo : GHRepo) (ref : String) : Option Yaml :=
  match repo.getFileContent config.RELEASE_METADATA_FILE ref with
  | none => none
  | some content =>
    if content = "" then none
    else
      match repo.safeLoad content with
      | .ok y => some y
      | .error _ => none

/-- `ReleaseStateManager.derive_state`: tag exists → PUBLISHED; else
snapshot branch exists → DRAFT_READY / SNAPSHOT_ACTIVE by draft release;
else the release plan decides PLANNED / NOT_PLANNED; default
NOT_PLANNED.  `plan.get(...).get(...)` and `release_type.lower()` raise
on non-dict / non-string operands, as in Python. -/
def derive_state (repo : GHRepo) (release_tag : String) : Except PyErr ReleaseState :=
  if repo.tagExists release_tag then .ok .PUBLISHED
  else
    let snapshot_branches := repo.listBranches (config.snapshotBranchPfx ++ release_tag ++ "-*")
    if ¬ snapshot_branches.isEmpty then
      if repo.draftReleaseExists release_tag then .ok .DRAFT_READY
      else .ok .SNAPSHOT_ACTIVE
    else
      match read_release_plan repo "main" with
      | none => .ok .NOT_PLANNED
      | some plan =>
        if ¬ plan.truthy then .ok .NOT_PLANNED
        else
          match plan.getD "repository" (.map []) with
          | .error er => .error er
          | .ok repoSec1 =>
            match repoSec1.get1 "target_release_tag" with
            | .error er => .error er
            | .ok target_tag =>
              match plan.getD "repository" (.map []) with
              | .error er => .error er
              | .ok repoSec2 =>
                match repoSec2.get1 "target_release_type" with
                | .error er => .error er
                | .ok release_type =>
                  if target_tag.eqStr release_tag then
                    if release_type.truthy then
                      match release_type.lower with
                      | .error er => .error er
                      | .ok l => if l ≠ "none" then .ok .PLANNED else .ok .NOT_PLANNED
                    else .ok .NOT_PLANNED
                  else .ok .NOT_PLANNED

/-- `ReleaseStateManager.get_current_snapshot`: `None` when no snapshot
branch matches; otherwise a `SnapshotInfo` for the first matching branch,
populated from `release-metadata.yaml` on that branch when the document
is present and truthy, with the branch SHA and empty values as
fallback. -/
def get_current_snapshot (repo : GHRepo) (release_tag : String) :
    Except PyErr (Option SnapshotInfo) :=
  match repo.listBranches (config.snapshotBranchPfx ++ release_tag ++ "-*") with
  | [] => .ok none
  | branch :: _ =>
    let branch_name := branch.name
    let snapshot_id := pyReplace branch_name config.snapshotBranchPfx ""
    let metadata := read_release_metadata repo branch_name
    let fieldsEx : Except PyErr (Yaml × Yaml × Yaml × Yaml × Yaml) :=
      match metadata with
      | some m =>
        if m.truthy then
          match m.getD "repository" (.map []) with
          | .error er => .error er
          | .ok repoSec =>
            match repoSec.getD "src_commit_sha" (.str branch.sha) with
            | .error er => .error er
            | .ok srcSha =>
              match repoSec.getD "release_type" (.str "") with
              | .error er => .error er
              | .ok rType =>
                match m.getD "apis" (.list []) with
                | .error er => .error er
                | .ok apis =>
                  match m.getD "dependencies" (.map []) with
                  | .error er => .error er
                  | .ok deps =>
                    match deps.getD "commonalities_release" (.str "") with
                    | .error er => .error er
                    | .ok comm =>
                      match deps.getD "identity_consent_management_release" (.str "") with
                      | .error er => .error er
                      | .ok icm => .ok (srcSha, rType, apis, comm, icm)
        else .ok (.str branch.sha, .str "", .list [], .str "", .str "")
      | none => .ok (.str branch.sha, .str "", .list [], .str "", .str "")
    match fieldsEx with
    | .error er => .error er
    | .ok (srcSha, rType, apis, comm, icm) =>
      let created_at :=
        match repo.getBranchCreationTime branch_name with
        | some s =>
          match repo.parseIsoDatetime (pyReplace s "Z" "+00:00") with
          | some dt => dt
          | none => repo.now
        | none => repo.now
      let release_review_branch := config.releaseReviewBranchPfx ++ snapshot_id
      let release_pr_number := repo.findPrForBranch release_review_branch
      .ok (some {
        snapshot_id := snapshot_id,
        snapshot_branch := branch_name,
        release_review_branch := release_review_branch,
        src_commit_sha := srcSha,
        created_at := created_at,
        release_pr_number := release_pr_number,
        release_type := rType,
        apis := apis,
        commonalities_release := comm,
        identity_consent_management_release := icm })

/-- The issue loop of `find_release_issue`: skip issues without the
workflow marker in the body, return the number of the first remaining
issue whose title contains the release tag. -/
def findIssueLoop (release_tag : Yaml) : List Yaml → Except PyErr Yaml
  | [] => .ok .null
  | issue :: rest =>
    match issue.getD "body" (.str "") with
    | .error er => .error er
    | .ok bodyRaw =>
      let body := if bodyRaw.truthy then bodyRaw else .str ""
      match issue.getD "title" (.str "") with
      | .error er => .error er
      | .ok titleRaw =>
        let title := if titleRaw.truthy then titleRaw else .str ""
        match body.contains (.str WORKFLOW_MARKER) with
        | .error er => .error er
        | .ok hasMarker =>
          if ¬ hasMarker then findIssueLoop release_tag rest
          else
            match title.contains release_tag with
            | .error er => .error er
            | .ok hasTag =>
              if hasTag then issue.get1 "number"
              else findIssueLoop release_tag rest

/-- `ReleaseStateManager.find_release_issue` over the open issues with
the release-issue label. -/
def find_release_issue (repo : GHRepo) (release_tag : Yaml) : Except PyErr Yaml :=
  findIssueLoop release_tag (repo.searchIssues [RELEASE_ISSUE_LABEL] "open")

/-- `ReleaseStateManager._read_release_plan_with_validation`: the
validation gate distinguishing missing file, malformed YAML / non-mapping
document, missing or non-mapping `repository` section, and missing
`repository.target_release_tag`. -/
def read_release_plan_with_validation (repo : GHRepo) (ref : String) :
    Option Yaml × Option ConfigurationError :=
  match repo.getFileContent config.RELEASE_PLAN_FILE ref with
  | none =>
    (none, some {
      error_type := "missing_file",
      message := "No " ++ config.RELEASE_PLAN_FILE ++ " found on " ++ ref ++ " branch",
      file_path := config.RELEASE_PLAN_FILE })
  | some content =>
    match repo.safeLoad content with
    | .error e =>
      (none, some {
        error_type := "malformed_yaml",
        message := "Invalid YAML syntax in " ++ config.RELEASE_PLAN_FILE ++ ": " ++ e.message,
        file_path := config.RELEASE_PLAN_FILE })
    | .ok plan =>
      match plan with
      | .map kvs =>
        let repository := ((kvs.lookup "repository").getD Yaml.null)
        if ¬ repository.truthy ∨ ¬ repository.isMap then
          (none, some {
            error_type := "missing_field",
            message := "Missing \x27repository\x27 section in " ++ config.RELEASE_PLAN_FILE,
            file_path := config.RELEASE_PLAN_FILE,
            field_path := some "repository" })
        else
          match repository with
          | .map rkvs =>
            let target_release_tag := ((rkvs.lookup "target_release_tag").getD Yaml.null)
            if ¬ target_release_tag.truthy then
              (none, some {
                error_type := "missing_field",
                message := "Missing \x27target_release_tag\x27 in " ++ config.RELEASE_PLAN_FILE
                  ++ " repository section",
                file_path := config.RELEASE_PLAN_FILE,
                field_path := some "repository.target_release_tag" })
            else (some plan, none)
          | _ =>
            (none, some {
              error_type := "missing_field",
              message := "Missing \x27repository\x27 section in " ++ config.RELEASE_PLAN_FILE,
              file_path := config.RELEASE_PLAN_FILE,
              field_path := some "repository" })
      | _ =>
        (none, some {
          error_type := "malformed_yaml",
          message := config.RELEASE_PLAN_FILE
            ++ " must contain a YAML mapping (not empty or scalar)",
          file_path := config.RELEASE_PLAN_FILE })

/-- `ReleaseStateManager.get_current_release_info`: validation gate first,
then published / snapshot / plan resolution.  On the snapshot path the
code passes `snapshot.release_type if \x27snapshot\x27 in locals() and snapshot
else None`; no local named `snapshot` is ever bound in the method, so the
guard is always False and `None` is attached as the release type. -/
def get_current_release_info (repo : GHRepo) : Except PyErr ReleaseInfoResult :=
  match read_release_plan_with_validation repo "main" with
  | (_, some config_error) => .ok { success := false, config_error := some config_error }
  | (planOpt, none) =>
    let plan := planOpt.getD Yaml.null
    match plan.idx "repository" with
    | .error er => .error er
    | .ok repoSec =>
      match repoSec.idx "target_release_tag" with
      | .error er => .error er
      | .ok plan_release_tag =>
        match repoSec.get1 "target_release_type" with
        | .error er => .error er
        | .ok plan_release_type =>
          if repo.tagExists plan_release_tag.pyStr then
            match find_release_issue repo plan_release_tag with
            | .error er => .error er
            | .ok issueNum =>
              .ok { success := true, release_tag := some plan_release_tag,
                    state := some .PUBLISHED, snapshot_branch := none,
                    source := some "tag", release_issue_number := issueNum,
                    release_type := plan_release_type }
          else
            match repo.listBranches
                (config.snapshotBranchPfx ++ plan_release_tag.pyStr ++ "-*") with
            | branch0 :: _ =>
              let snapshot_branch := branch0.name
              let metadata := read_release_metadata repo snapshot_branch
              let mrtEx : Except PyErr Yaml :=
                match metadata with
                | some m =>
                  if m.truthy then
                    match m.getD "repository" (.map []) with
                    | .error er => .error er
                    | .ok sec => sec.get1 "release_tag"
                  else
                    let snapshot_id := pyReplace snapshot_branch config.snapshotBranchPfx ""
                    .ok (.str (if subL ['-'] snapshot_id.data then
                      match splitOnC '-' snapshot_id.data with
                      | p :: _ => String.mk p
                      | [] => snapshot_id
                      else snapshot_id))
                | none =>
                  let snapshot_id := pyReplace snapshot_branch config.snapshotBranchPfx ""
                  .ok (.str (if subL ['-'] snapshot_id.data then
                    match splitOnC '-' snapshot_id.data with
                    | p :: _ => String.mk p
                    | [] => snapshot_id
                    else snapshot_id))
              match mrtEx with
              | .error er => .error er
              | .ok metadata_release_tag =>
                let draftArg :=
                  if metadata_release_tag.truthy then metadata_release_tag else plan_release_tag
                let state :=
                  if repo.draftReleaseExists draftArg.pyStr then ReleaseState.DRAFT_READY
                  else ReleaseState.SNAPSHOT_ACTIVE
                let effective_tag :=
                  if metadata_release_tag.truthy then metadata_release_tag else plan_release_tag
                match find_release_issue repo effective_tag with
                | .error er => .error er
                | .ok issueNum =>
                  .ok { success := true, release_tag := some effective_tag,
                        state := some state, snapshot_branch := some snapshot_branch,
                        source := some "release-metadata.yaml",
                        release_issue_number := issueNum,
                        release_type := .null }
            | [] =>
              let stateEx : Except PyErr ReleaseState :=
                if plan_release_type.truthy then
                  match plan_release_type.lower with
                  | .error er => .error er
                  | .ok l => .ok (if l ≠ "none" then .PLANNED else .NOT_PLANNED)
                else .ok .NOT_PLANNED
              match stateEx with
              | .error er => .error er
              | .ok state =>
                match find_release_issue repo plan_release_tag with
                | .error er => .error er
                | .ok issueNum =>
                  .ok { success := true, release_tag := some plan_release_tag,
                        state := some state, snapshot_branch := none,
                        source := some "release-plan.yaml",
                        release_issue_number := issueNum,
                        release_type := plan_release_type }

end ReleaseStateManager

/-- Canonical rendering `maj.min.pat` of a semantic version triple. -/
def renderVer (a b c : Nat) : String :=
  natStr a ++ "." ++ natStr b ++ "." ++ natStr c

/-- Canonical rendering `maj.min.pat-status.ext` of a pre-release
version. -/
def renderPre (a b c : Nat) (st : String) (e : Nat) : String :=
  renderVer a b c ++ "-" ++ st ++ "." ++ natStr e

/-- The release-plan shapes on which `derive_state` completes without a
Python exception: a document that is absent, falsy, or a mapping whose
`repository` value (when the key is present) is itself a mapping and
whose `target_release_type` (when the tag matches and the value is
truthy) is a string.  Outside these shapes `plan.get(...).get(...)` or
`release_type.lower()` raises. -/
def planBenign (release_tag : String) (p : Option Yaml) : Bool :=
  match p with
  | none => true
  | some y =>
    ¬ y.truthy ||
      match y with
      | .map kvs =>
        match kvs.lookup "repository" with
        | none => true
        | some (.map rkvs) =>
          let tt := (rkvs.lookup "target_release_tag").getD .null
          let rt := (rkvs.lookup "target_release_type").getD .null
          if tt.eqStr release_tag then
            (¬ rt.truthy) || (match rt with | .str _ => true | _ => false)
          else true
        | some _ => false
      | _ => false

/-- The condition under which the plan makes a release tag PLANNED: the
document parses to a mapping whose `repository` is a mapping with
`target_release_tag` equal to the tag and a truthy string
`target_release_type` that is not `none` case-insensitively. -/
def planActive (release_tag : String) (p : Option Yaml) : Bool :=
  match p with
  | some (.map kvs) =>
    match kvs.lookup "repository" with
    | some (.map rkvs) =>
      ((rkvs.lookup "target_release_tag").getD .null).eqStr release_tag
        && (let rt := (rkvs.lookup "target_release_type").getD .null
            rt.truthy && (match rt with
              | .str s => String.mk (s.data.map charLower) ≠ "none"
              | _ => false))
    | _ => false
  | _ => false

/-- A base environment answering every query negatively. -/
def emptyRepo : GHRepo where
  tagExists := fun _ => false
  listBranches := fun _ => []
  draftReleaseExists := fun _ => false
  getFileContent := fun _ _ => none
  getReleases := fun _ => []
  searchIssues := fun _ _ => []
  getBranchCreationTime := fun _ => none
  findPrForBranch := fun _ => none
  safeLoad := fun _ => .error { message := "unexpected" }
  parseIsoDatetime := fun _ => none
  now := "2026-01-01T00:00:00"

/-- Environment where the release tag r4.1 is already a git tag, and a
snapshot branch and an active plan also exist (tag existence must still
dominate). -/
def repoTagged : GHRepo :=
  { emptyRepo with
    tagExists := fun t => t = "r4.1",
    listBranches := fun p =>
      if p = "release-snapshot/r4.1-*" then [{ name := "release-snapshot/r4.1-abc1234", sha := "cafe1234" }] else [],
    draftReleaseExists := fun t => t = "r4.1",
    getFileContent := fun path ref =>
      if path = "release-plan.yaml" ∧ ref = "main" then some "planA" else none,
    safeLoad := fun s =>
      if s = "planA" then
        .ok (.map [("repository", .map [("target_release_tag", .str "r4.1"),
                                        ("target_release_type", .str "pre-release-rc")])])
      else .error { message := "unexpected" } }

/-- Environment with a valid active release plan for r4.1 and no other
artifacts. -/
def repoPlanned : GHRepo :=
  { emptyRepo with
    getFileContent := fun path ref =>
      if path = "release-plan.yaml" ∧ ref = "main" then some "planA" else none,
    safeLoad := fun s =>
      if s = "planA" then
        .ok (.map [("repository", .map [("target_release_tag", .str "r4.1"),
                                        ("target_release_type", .str "pre-release-rc")])])
      else .error { message := "unexpected" } }

/-- Environment whose release plan parses to a bare (truthy, non-mapping)
string: `yaml.safe_load("hello") == "hello"`. -/
def repoScalarPlan : GHRepo :=
  { emptyRepo with
    getFileContent := fun path ref =>
      if path = "release-plan.yaml" ∧ ref = "main" then some "hello" else none,
    safeLoad := fun s =>
      if s = "hello" then .ok (.str "hello") else .error { message := "unexpected" } }

/-- Environment whose release plan targets r4.1 with an empty-string
(present but falsy) `target_release_type`. -/
def repoEmptyType : GHRepo :=
  { emptyRepo with
    getFileContent := fun path ref =>
      if path = "release-plan.yaml" ∧ ref = "main" then some "planE" else none,
    safeLoad := fun s =>
      if s = "planE" then
        .ok (.map [("repository", .map [("target_release_tag", .str "r4.1"),
                                        ("target_release_type", .str "")])])
      else .error { message := "unexpected" } }

/-- Environment with one snapshot branch for r4.1 and no readable
release metadata on it. -/
def repoSnapshotNoMeta : GHRepo :=
  { emptyRepo with
    listBranches := fun p =>
      if p = "release-snapshot/r4.1-*" then
        [{ name := "release-snapshot/r4.1-abc1234", sha := "cafe1234" }]
      else [] }

/-- Environment with two published releases whose metadata records
colliding rc extensions 1 and 3 for the API quality-on-demand at
major 1. -/
def repoTwoReleases : GHRepo :=
  { emptyRepo with
    getReleases := fun drafts =>
      if drafts then []
      else [{ tag_name := "r3.1", name := "r3.1", draft := false, prerelease := true, html_url := "u1" },
            { tag_name := "r3.2", name := "r3.2", draft := false, prerelease := true, html_url := "u2" }],
    getFileContent := fun path ref =>
      if path = "release-metadata.yaml" ∧ ref = "r3.1" then some "meta1"
      else if path = "release-metadata.yaml" ∧ ref = "r3.2" then some "meta2"
      else none,
    safeLoad := fun s =>
      if s = "meta1" then
        .ok (.map [("apis", .list [.map [("api_name", .str "quality-on-demand"),
                                         ("api_version", .str "1.2.0-rc.1")]])])
      else if s = "meta2" then
        .ok (.map [("apis", .list [.map [("api_name", .str "quality-on-demand"),
                                         ("api_version", .str "1.2.0-rc.3")]])])
      else .error { message := "unexpected" } }

/-- A release whose metadata file is absent in `repoTwoReleases` (tag
r9.9 has no file content). -/
def relNoMeta : Release :=
  { tag_name := "r9.9", name := "r9.9", draft := false, prerelease := true, html_url := "u9" }

/-- A release whose metadata is readable in `repoTwoReleases`. -/
def relWithMeta : Release :=
  { tag_name := "r3.1", name := "r3.1", draft := false, prerelease := true, html_url := "u1" }

/-- Environment used to witness determinism: answers the r4.1 queries as
`repoPlanned` does but differs on unrelated queries (release listing,
branch-creation times, clock). -/
def repoPlannedVariant : GHRepo :=
  { repoPlanned with
    getReleases := fun _ =>
      [{ tag_name := "zzz", name := "zzz", draft := true, prerelease := false, html_url := "z" }],
    getBranchCreationTime := fun _ => some "2024-01-01T00:00:00Z",
    findPrForBranch := fun _ => some 42,
    now := "1999-12-31T23:59:59" }

/-- Environment on the snapshot path of `get_current_release_info`: valid
plan for r4.1, no tag, one snapshot branch whose metadata explicitly
carries a `repository.release_type`. -/
def repoSnapshotWithType : GHRepo :=
  { emptyRepo with
    listBranches := fun p =>
      if p = "release-snapshot/r4.1-*" then
        [{ name := "release-snapshot/r4.1-abc1234", sha := "cafe1234" }]
      else [],
    getFileContent := fun path ref =>
      if path = "release-plan.yaml" ∧ ref = "main" then some "planA"
      else if path = "release-metadata.yaml" ∧ ref = "release-snapshot/r4.1-abc1234" then some "metaS"
      else none,
    safeLoad := fun s =>
      if s = "planA" then
        .ok (.map [("repository", .map [("target_release_tag", .str "r4.1"),
                                        ("target_release_type", .str "pre-release-rc")])])
      else if s = "metaS" then
        .ok (.map [("repository", .map [("release_tag", .str "r4.1"),
                                        ("release_type", .str "pre-release-rc")])])
      else .error { message := "unexpected" } }

/-- The result `get_current_release_info` computes on `repoPlanned`. -/
def resultPlanned : ReleaseInfoResult :=
  { success := true, release_tag := some (.str "r4.1"), state := some .PLANNED,
    snapshot_branch := none, source := some "release-plan.yaml",
    config_error := none, release_issue_number := .null,
    release_type := .str "pre-release-rc" }

/-- The result `get_current_release_info` computes on
`repoSnapshotWithType`. -/
def resultSnapshotWithType : ReleaseInfoResult :=
  { success := true, release_tag := some (.str "r4.1"), state := some .SNAPSHOT_ACTIVE,
    snapshot_branch := some "release-snapshot/r4.1-abc1234",
    source := some "release-metadata.yaml",
    config_error := none, release_issue_number := .null,
    release_type := .null }

/-- The result `get_current_release_info` computes on `emptyRepo` (no
release-plan file at all). -/
def resultMissingPlan : ReleaseInfoResult :=
  { success := false,
    config_error := some {
      error_type := "missing_file",
      message := "No release-plan.yaml found on main branch",
      file_path := "release-plan.yaml" } }

theorem init_le_foldl_max (l : List Nat) : ∀ a, a ≤ l.foldl Nat.max a := by
  induction l with
  | nil => intro a; exact Nat.le_refl a
  | cons y t ih =>
    intro a
    calc a ≤ Nat.max a y := Nat.le_max_left a y
      _ ≤ t.foldl Nat.max (Nat.max a y) := ih (Nat.max a y)

theorem le_foldl_max (l : List Nat) : ∀ a x, x ∈ l → x ≤ l.foldl Nat.max a := by
  induction l with
  | nil => intro a x hx; cases hx
  | cons y t ih =>
    intro a x hx
    cases hx with
    | head =>
      calc y ≤ Nat.max a y := Nat.le_max_right a y
        _ ≤ t.foldl Nat.max (Nat.max a y) := init_le_foldl_max t (Nat.max a y)
    | tail _ hmem => exact ih (Nat.max a y) x hmem

theorem foldl_max_eq_or_mem (l : List Nat) :
    ∀ a, l.foldl Nat.max a = a ∨ l.foldl Nat.max a ∈ l := by
  induction l with
  | nil => intro a; exact Or.inl rfl
  | cons y t ih =>
    intro a
    have hstep : (y :: t).foldl Nat.max a = t.foldl Nat.max (Nat.max a y) := rfl
    rcases ih (Nat.max a y) with h | h
    · rcases Nat.le_total a y with hay | hya
      · right
        have hmax : Nat.max a y = y := Nat.max_eq_right hay
        rw [hstep, h, hmax]
        exact List.mem_cons_self y t
      · left
        have hmax : Nat.max a y = a := Nat.max_eq_left hya
        rw [hstep, h, hmax]
    · right
      rw [hstep]
      exact List.mem_cons_of_mem y h

theorem maxNat_mem (l : List Nat) (hne : l ≠ []) : VersionCalculator.maxNat l ∈ l := by
  have hdef : VersionCalculator.maxNat l = l.foldl Nat.max 0 := rfl
  rcases foldl_max_eq_or_mem l 0 with h | h
  · cases l with
    | nil => exact absurd rfl hne
    | cons y t =>
      have hy : y ≤ (y :: t).foldl Nat.max 0 :=
        le_foldl_max (y :: t) 0 y (List.mem_cons_self y t)
      have hy0 : y = 0 := by omega
      rw [hdef, h, hy0]
      exact List.mem_cons_self 0 t
  · rw [hdef]; exact h

theorem le_maxNat_of_mem (l : List Nat) (x : Nat) (hx : x ∈ l) :
    x ≤ VersionCalculator.maxNat l :=
  le_foldl_max l 0 x hx

/-- Claim C6: `calculate_version` with target status public returns the
base version unchanged, for every environment (hence independent of any
existing releases) and every base version. -/
theorem calculate_version_public_passthrough (repo : GHRepo)
    (api_name target_version : String) :
    VersionCalculator.calculate_version repo api_name target_version "public"
      = .ok target_version := by
  simp [VersionCalculator.calculate_version]

/-- Claim C2: whenever a version-control tag named exactly like the
release tag exists, `derive_state` returns PUBLISHED, whatever branches,
draft releases, or plan content also exist. -/
theorem derive_state_tag_dominates (repo : GHRepo) (release_tag : String)
    (h : repo.tagExists release_tag = true) :
    ReleaseStateManager.derive_state repo release_tag = .ok .PUBLISHED := by
  simp [ReleaseStateManager.derive_state, h]

/-- Witness for C2: in `repoTagged` the tag, a snapshot branch, a draft
release, and an active plan all exist, and the result is PUBLISHED. -/
theorem derive_state_tag_dominates_witness :
    repoTagged.tagExists "r4.1" = true
    ∧ repoTagged.listBranches "release-snapshot/r4.1-*" ≠ []
    ∧ repoTagged.draftReleaseExists "r4.1" = true
    ∧ ReleaseStateManager.derive_state repoTagged "r4.1" = .ok .PUBLISHED :=
  ⟨rfl, by decide, rfl, derive_state_tag_dominates repoTagged "r4.1" rfl⟩

/-- Claim C9: `derive_state` is a deterministic function of the observed
artifacts: two environments answering every query it makes identically
(tag existence, snapshot-branch listing, draft-release existence, plan
file content, YAML parsing) produce the same state; there is no hidden
memory between calls. -/
theorem derive_state_deterministic_in_observations (repo1 repo2 : GHRepo)
    (release_tag : String)
    (htag : repo1.tagExists release_tag = repo2.tagExists release_tag)
    (hbr : repo1.listBranches (config.snapshotBranchPfx ++ release_tag ++ "-*")
         = repo2.listBranches (config.snapshotBranchPfx ++ release_tag ++ "-*"))
    (hdraft : repo1.draftReleaseExists release_tag = repo2.draftReleaseExists release_tag)
    (hfile : repo1.getFileContent config.RELEASE_PLAN_FILE "main"
           = repo2.getFileContent config.RELEASE_PLAN_FILE "main")
    (hyaml : ∀ s, repo1.safeLoad s = repo2.safeLoad s) :
    ReleaseStateManager.derive_state repo1 release_tag
      = ReleaseStateManager.derive_state repo2 release_tag := by
  have hplan : ReleaseStateManager.read_release_plan repo1 "main"
      = ReleaseStateManager.read_release_plan repo2 "main" := by
    unfold ReleaseStateManager.read_release_plan
    rw [hfile]
    cases repo2.getFileContent config.RELEASE_PLAN_FILE "main" with
    | none => rfl
    | some content =>
      dsimp only
      rw [hyaml content]
  unfold ReleaseStateManager.derive_state
  rw [htag, hbr, hdraft, hplan]

/-- Witness for C9: two environments that differ in release listings,
branch-creation times, PR lookup and clock, but agree on the queries
`derive_state` makes, derive the same state. -/
theorem derive_state_deterministic_witness :
    ReleaseStateManager.derive_state repoPlanned "r4.1"
      = ReleaseStateManager.derive_state repoPlannedVariant "r4.1"
    ∧ repoPlanned.getReleases true ≠ repoPlannedVariant.getReleases true :=
  ⟨derive_state_deterministic_in_observations repoPlanned repoPlannedVariant "r4.1"
      rfl rfl rfl rfl (fun _ => rfl),
   by decide⟩

/-- Claim C5: for a non-public target status, once the scan yields the
collected extension list, `calculate_version` renders
base-status.n with n the successor of the greatest collected extension,
or n = 1 when nothing was collected; `maxNat l` really is the maximum of
a nonempty `l` (gaps are not filled). -/
theorem calculate_version_max_plus_one (repo : GHRepo)
    (api_name target_version target_status : String)
    (hs : target_status ≠ "public") (l : List Nat)
    (hscan : VersionCalculator.find_existing_extensions repo api_name target_version
        target_status = .ok l) :
    VersionCalculator.calculate_version repo api_name target_version target_status
      = .ok (target_version ++ "-" ++ target_status ++ "."
          ++ natStr (if l.isEmpty then 1 else VersionCalculator.maxNat l + 1))
    ∧ (l ≠ [] → VersionCalculator.maxNat l ∈ l
        ∧ ∀ x ∈ l, x ≤ VersionCalculator.maxNat l) := by
  constructor
  · unfold VersionCalculator.calculate_version
    rw [if_neg hs, hscan]
  · intro hne
    exact ⟨maxNat_mem l hne, fun x hx => le_maxNat_of_mem l x hx⟩

/-- Witness for C5: collected extensions 1 and 3 yield 1.2.0-rc.4
(max + 1, not gap-filling). -/
theorem calculate_version_max_plus_one_witness :
    VersionCalculator.find_existing_extensions repoTwoReleases "quality-on-demand"
        "1.2.0" "rc" = .ok [1, 3]
    ∧ VersionCalculator.calculate_version repoTwoReleases "quality-on-demand"
        "1.2.0" "rc" = .ok "1.2.0-rc.4" :=
  ⟨rfl,
   ((calculate_version_max_plus_one repoTwoReleases "quality-on-demand" "1.2.0" "rc"
      (by decide) [1, 3] rfl).1).trans rfl⟩

/-- Claim C7: a published release whose metadata document is missing or
unparseable is skipped silently by the extension scan: removing it from
the scanned release list changes nothing (in particular it never raises
and contributes no candidate extensions). -/
theorem find_existing_extensions_skips_unreadable (repo : GHRepo)
    (api_name target_version target_status : String) (rel : Release)
    (hmeta : VersionCalculator.read_release_metadata repo rel.tag_name = none) :
    VersionCalculator.find_existing_extensions repo api_name target_version target_status
      = VersionCalculator.scanReleases repo api_name target_version target_status
          (repo.getReleases false) []
    ∧ ∀ (l1 l2 : List Release) (acc : List Nat),
        VersionCalculator.scanReleases repo api_name target_version target_status
            (l1 ++ rel :: l2) acc
          = VersionCalculator.scanReleases repo api_name target_version target_status
              (l1 ++ l2) acc := by
  constructor
  · rfl
  · intro l1
    induction l1 with
    | nil =>
      intro l2 acc
      show VersionCalculator.scanReleases repo api_name target_version target_status
          (rel :: l2) acc = _
      simp [VersionCalculator.scanReleases, VersionCalculator.scanRelease, hmeta]
    | cons x t ih =>
      intro l2 acc
      have hL : VersionCalculator.scanReleases repo api_name target_version target_status
          ((x :: t) ++ rel :: l2) acc
        = match VersionCalculator.scanRelease repo api_name target_version target_status acc x with
          | .error er => .error er
          | .ok acc2 => VersionCalculator.scanReleases repo api_name target_version target_status
              (t ++ rel :: l2) acc2 := rfl
      have hR : VersionCalculator.scanReleases repo api_name target_version target_status
          ((x :: t) ++ l2) acc
        = match VersionCalculator.scanRelease repo api_name target_version target_status acc x with
          | .error er => .error er
          | .ok acc2 => VersionCalculator.scanReleases repo api_name target_version target_status
              (t ++ l2) acc2 := rfl
      rw [hL, hR]
      cases VersionCalculator.scanRelease repo api_name target_version target_status acc x with
      | error er => rfl
      | ok acc2 => exact ih l2 acc2

/-- Witness for C7: release r9.9 has no readable metadata in
`repoTwoReleases`; dropping it from the scan list leaves the scan result
unchanged (and the remaining release still contributes its extension). -/
theorem find_existing_extensions_skips_unreadable_witness :
    VersionCalculator.read_release_metadata repoTwoReleases relNoMeta.tag_name = none
    ∧ VersionCalculator.scanReleases repoTwoReleases "quality-on-demand" "1.2.0" "rc"
        [relNoMeta, relWithMeta] []
      = VersionCalculator.scanReleases repoTwoReleases "quality-on-demand" "1.2.0" "rc"
          [relWithMeta] []
    ∧ VersionCalculator.scanReleases repoTwoReleases "quality-on-demand" "1.2.0" "rc"
        [relWithMeta] [] = .ok [1] :=
  ⟨rfl,
   (find_existing_extensions_skips_unreadable repoTwoReleases "quality-on-demand"
      "1.2.0" "rc" relNoMeta rfl).2 [] [relWithMeta] [],
   rfl⟩

/-- Claim C8: `get_current_snapshot` returns absent exactly when no
snapshot branch matches; with a matching branch whose metadata document
is absent or unparseable it still succeeds, falling back to the branch
SHA and empty release type, API list and dependency releases. -/
theorem get_current_snapshot_absent_iff_and_fallback (repo : GHRepo) (release_tag : String) :
    (ReleaseStateManager.get_current_snapshot repo release_tag = .ok none
       ↔ repo.listBranches (config.snapshotBranchPfx ++ release_tag ++ "-*") = [])
    ∧ (∀ b bs, repo.listBranches (config.snapshotBranchPfx ++ release_tag ++ "-*") = b :: bs →
        ReleaseStateManager.read_release_metadata repo b.name = none →
        ∃ si, ReleaseStateManager.get_current_snapshot repo release_tag = .ok (some si)
          ∧ si.src_commit_sha = .str b.sha
          ∧ si.release_type = .str ""
          ∧ si.apis = .list []
          ∧ si.commonalities_release = .str ""
          ∧ si.identity_consent_management_release = .str "") := by
  constructor
  · constructor
    · intro h
      cases hl : repo.listBranches (config.snapshotBranchPfx ++ release_tag ++ "-*") with
      | nil => rfl
      | cons b bs =>
        unfold ReleaseStateManager.get_current_snapshot at h
        rw [hl] at h
        revert h
        cases hfe : (match ReleaseStateManager.read_release_metadata repo b.name with
          | some m =>
            if m.truthy then
              match m.getD "repository" (.map []) with
              | .error er => .error er
              | .ok repoSec =>
                match repoSec.getD "src_commit_sha" (.str b.sha) with
                | .error er => .error er
                | .ok srcSha =>
                  match repoSec.getD "release_type" (.str "") with
                  | .error er => .error er
                  | .ok rType =>
                    match m.getD "apis" (.list []) with
                    | .error er => .error er
                    | .ok apis =>
                      match m.getD "dependencies" (.map []) with
                      | .error er => .error er
                      | .ok deps =>
                        match deps.getD "commonalities_release" (.str "") with
                        | .error er => .error er
                        | .ok comm =>
                          match deps.getD "identity_consent_management_release" (.str "") with
                          | .error er => .error er
                          | .ok icm => .ok (srcSha, rType, apis, comm, icm)
            else .ok (.str b.sha, .str "", .list [], .str "", .str "")
          | none => .ok (.str b.sha, .str "", .list [], .str "", .str "") :
            Except PyErr (Yaml × Yaml × Yaml × Yaml × Yaml)) with
        | error er => intro h; simp [hfe] at h
        | ok tup => intro h; simp [hfe] at h
    · intro hl
      unfold ReleaseStateManager.get_current_snapshot
      rw [hl]
  · intro b bs hb hmeta
    unfold ReleaseStateManager.get_current_snapshot
    rw [hb]
    dsimp only
    rw [hmeta]
    exact ⟨_, rfl, rfl, rfl, rfl, rfl, rfl⟩

/-- Witness for C8: one snapshot branch for r4.1 with no metadata file on
it yields a SnapshotInfo carrying the branch SHA and empty values. -/
theorem get_current_snapshot_fallback_witness :
    ∃ si, ReleaseStateManager.get_current_snapshot repoSnapshotNoMeta "r4.1" = .ok (some si)
      ∧ si.src_commit_sha = .str "cafe1234"
      ∧ si.release_type = .str ""
      ∧ si.apis = .list []
      ∧ si.commonalities_release = .str ""
      ∧ si.identity_consent_management_release = .str "" :=
  (get_current_snapshot_absent_iff_and_fallback repoSnapshotNoMeta "r4.1").2
    { name := "release-snapshot/r4.1-abc1234", sha := "cafe1234" } [] rfl rfl

theorem release_info_ok_shape (repo : GHRepo) (r : ReleaseInfoResult)
    (h : ReleaseStateManager.get_current_release_info repo = .ok r) :
    (r.state = none ∧ r.success = false ∧ r.source = none ∧ r.config_error ≠ none)
    ∨ (r.config_error = none ∧ r.success = true ∧ r.state ≠ none
       ∧ (r.source = some "release-metadata.yaml" → r.release_type = .null)) := by
  unfold ReleaseStateManager.get_current_release_info at h
  dsimp only at h
  repeat' split at h
  all_goals try cases h
  all_goals simp

/-- Claim C4: `get_current_release_info` never returns both a non-null
state and a non-null config_error: every non-raising result carries at
most one of the two (the validation gate short-circuits before any state
logic runs). -/
theorem release_info_state_config_error_exclusive (repo : GHRepo) (r : ReleaseInfoResult)
    (h : ReleaseStateManager.get_current_release_info repo = .ok r) :
    r.state = none ∨ r.config_error = none := by
  rcases release_info_ok_shape repo r h with ⟨h1, _⟩ | ⟨h1, _⟩
  · exact Or.inl h1
  · exact Or.inr h1

/-- Witness for C4: a valid active plan yields a state and no config
error; a missing plan file yields a config error and no state. -/
theorem release_info_state_config_error_exclusive_witness :
    ReleaseStateManager.get_current_release_info repoPlanned = .ok resultPlanned
    ∧ resultPlanned.state = some .PLANNED
    ∧ (resultPlanned.state = none ∨ resultPlanned.config_error = none)
    ∧ ReleaseStateManager.get_current_release_info emptyRepo = .ok resultMissingPlan
    ∧ resultMissingPlan.config_error ≠ none
    ∧ (resultMissingPlan.state = none ∨ resultMissingPlan.config_error = none) :=
  ⟨rfl, rfl,
   release_info_state_config_error_exclusive repoPlanned resultPlanned rfl,
   rfl, by simp [resultMissingPlan],
   release_info_state_config_error_exclusive emptyRepo resultMissingPlan rfl⟩

/-- Claim C10: on the snapshot-branch path of `get_current_release_info`
(identified by its source being the release-metadata document), the
returned release_type is always None, because the guard
`\x27snapshot\x27 in locals()` never holds in that method. -/
theorem release_info_snapshot_path_release_type_none (repo : GHRepo) (r : ReleaseInfoResult)
    (h : ReleaseStateManager.get_current_release_info repo = .ok r)
    (hsrc : r.source = some "release-metadata.yaml") :
    r.release_type = Yaml.null := by
  rcases release_info_ok_shape repo r h with ⟨_, _, hs, _⟩ | ⟨_, _, _, himp⟩
  · rw [hs] at hsrc
    cases hsrc
  · exact himp hsrc

/-- Witness for C10: the snapshot branch's metadata explicitly records a
repository.release_type, yet the result carries a null release type. -/
theorem release_info_snapshot_path_release_type_none_witness :
    repoSnapshotWithType.safeLoad "metaS"
      = .ok (.map [("repository", .map [("release_tag", .str "r4.1"),
                                        ("release_type", .str "pre-release-rc")])])
    ∧ ReleaseStateManager.get_current_release_info repoSnapshotWithType
      = .ok resultSnapshotWithType
    ∧ resultSnapshotWithType.source = some "release-metadata.yaml"
    ∧ resultSnapshotWithType.release_type = Yaml.null :=
  ⟨rfl, rfl, rfl,
   release_info_snapshot_path_release_type_none repoSnapshotWithType
     resultSnapshotWithType rfl rfl⟩

/-- Claim C3 (amended): for a release tag with no existing
version-control tag, a matching snapshot branch gives DRAFT_READY or
SNAPSHOT_ACTIVE by draft-release existence; with no matching branch and
a benign-shaped plan document, the result is PLANNED exactly when the
plan is a mapping whose repository.target_release_tag equals the tag and
whose target_release_type is a truthy string other than none
(case-insensitive), and NOT_PLANNED in every other benign case.  (The
original claim, which promised NotPlanned for every remaining document
shape, fails: a truthy non-mapping document or repository value, or a
truthy non-string release type on a matching entry, makes `derive_state`
raise instead — see the counterexample.) -/
theorem derive_state_no_tag_cases (repo : GHRepo) (t : String)
    (htag : repo.tagExists t = false) :
    (repo.listBranches (config.snapshotBranchPfx ++ t ++ "-*") ≠ [] →
       ReleaseStateManager.derive_state repo t
         = .ok (if repo.draftReleaseExists t then .DRAFT_READY else .SNAPSHOT_ACTIVE))
    ∧ (repo.listBranches (config.snapshotBranchPfx ++ t ++ "-*") = [] →
       planBenign t (ReleaseStateManager.read_release_plan repo "main") = true →
       ReleaseStateManager.derive_state repo t
         = .ok (if planActive t (ReleaseStateManager.read_release_plan repo "main")
                then .PLANNED else .NOT_PLANNED)) := by
  constructor
  · intro hne
    cases hbl : repo.listBranches (config.snapshotBranchPfx ++ t ++ "-*") with
    | nil => exact absurd hbl hne
    | cons b bs =>
      cases hd : repo.draftReleaseExists t <;>
        simp [ReleaseStateManager.derive_state, htag, hbl, hd]
  · intro hbl hben
    cases hp : ReleaseStateManager.read_release_plan repo "main" with
    | none => simp [ReleaseStateManager.derive_state, htag, hbl, hp, planActive]
    | some y =>
      rw [hp] at hben
      simp only [ReleaseStateManager.derive_state, htag, hbl, hp]
      cases y with
      | null => simp [Yaml.truthy, planActive]
      | str s =>
        simp [planBenign, Yaml.truthy] at hben
        subst hben
        simp [Yaml.truthy, planActive]
      | int n =>
        simp [planBenign, Yaml.truthy] at hben
        subst hben
        simp [Yaml.truthy, planActive]
      | bool b =>
        simp [planBenign, Yaml.truthy] at hben
        subst hben
        simp [Yaml.truthy, planActive]
      | list xs =>
        simp [planBenign, Yaml.truthy] at hben
        subst hben
        simp [Yaml.truthy, planActive]
      | map kvs =>
        by_cases hk : kvs = []
        · subst hk
          simp [Yaml.truthy, planActive]
        · have htr : Yaml.truthy (.map kvs) = true := by
            simp [Yaml.truthy, hk]
          simp only [htr, not_true, decide_False, Bool.false_or]
          cases hl : kvs.lookup "repository" with
          | none =>
            simp [planBenign, htr, hl, Yaml.getD, Yaml.get1, Yaml.eqStr, planActive,
              List.lookup]
          | some v =>
            rw [planBenign, hl] at hben
            simp only [htr, not_true, decide_False, Bool.false_or] at hben
            cases v with
            | map rkvs =>
              simp only [Yaml.getD, Yaml.get1, hl, planActive]
              cases hl2 : rkvs.lookup "target_release_tag" with
              | none =>
                cases hl3 : rkvs.lookup "target_release_type" with
                | none => simp [hl2, hl3, Yaml.eqStr]
                | some rt =>
                  simp only [hl2, hl3, Option.getD] at hben ⊢
                  simp [Yaml.eqStr]
              | some tt =>
                cases hl3 : rkvs.lookup "target_release_type" with
                | none =>
                  simp only [hl2, hl3, Option.getD] at hben ⊢
                  by_cases htt : tt.eqStr t = true
                  · simp [htt, Yaml.truthy]
                  · simp [htt]
                | some rt =>
                  simp only [hl2, hl3, Option.getD] at hben ⊢
                  by_cases htt : tt.eqStr t = true
                  · by_cases hrt : rt.truthy = true
                    · simp only [htt, hrt, if_true, not_true, decide_False,
                        Bool.false_or] at hben
                      cases rt with
                      | str s2 =>
                        simp only [htt, hrt, Yaml.lower, if_true]
                        by_cases hn : String.mk (s2.data.map charLower) = "none"
                        · simp [hn]
                        · simp [hn]
                      | null => simp at hben
                      | int n => simp at hben
                      | bool b => simp at hben
                      | list xs => simp at hben
                      | map kvs2 => simp at hben
                    · simp [htt, hrt]
                  · simp [htt]
            | null => simp at hben
            | str s2 => simp at hben
            | int n => simp at hben
            | bool b2 => simp at hben
            | list xs => simp at hben

/-- Counterexample for C3 as stated: with no tag and no snapshot branch,
a plan document parsing to the bare string hello makes `derive_state`
raise AttributeError rather than return NOT_PLANNED; and a plan whose
matching entry carries a present-but-empty target_release_type yields
NOT_PLANNED where the claim (present and not none) promises PLANNED. -/
theorem derive_state_remaining_case_counterexample :
    repoScalarPlan.tagExists "r4.1" = false
    ∧ repoScalarPlan.listBranches "release-snapshot/r4.1-*" = []
    ∧ ReleaseStateManager.read_release_plan repoScalarPlan "main" = some (.str "hello")
    ∧ ReleaseStateManager.derive_state repoScalarPlan "r4.1" = .error .attributeError
    ∧ ReleaseStateManager.derive_state repoScalarPlan "r4.1" ≠ .ok .NOT_PLANNED
    ∧ repoEmptyType.tagExists "r4.1" = false
    ∧ repoEmptyType.listBranches "release-snapshot/r4.1-*" = []
    ∧ ReleaseStateManager.read_release_plan repoEmptyType "main"
        = some (.map [("repository", .map [("target_release_tag", .str "r4.1"),
                                           ("target_release_type", .str "")])])
    ∧ ReleaseStateManager.derive_state repoEmptyType "r4.1" = .ok .NOT_PLANNED
    ∧ ReleaseStateManager.derive_state repoEmptyType "r4.1" ≠ .ok .PLANNED :=
  by
  refine ⟨rfl, rfl, rfl, rfl, ?_, rfl, rfl, rfl, rfl, ?_⟩
  · intro h
    have h2 : Except.error PyErr.attributeError
        = Except.ok ReleaseState.NOT_PLANNED :=
      (rfl : ReleaseStateManager.derive_state repoScalarPlan "r4.1"
        = Except.error PyErr.attributeError).symm.trans h
    exact Except.noConfusion h2
  · intro h
    have h2 : Except.ok ReleaseState.NOT_PLANNED
        = Except.ok ReleaseState.PLANNED :=
      (rfl : ReleaseStateManager.derive_state repoEmptyType "r4.1"
        = Except.ok ReleaseState.NOT_PLANNED).symm.trans h
    exact ReleaseState.noConfusion (Except.ok.inj h2)

/-- Witness for C3 (amended): an active plan for r4.1 derives PLANNED,
and a snapshot branch with no draft release derives SNAPSHOT_ACTIVE. -/
theorem derive_state_no_tag_cases_witness :
    ReleaseStateManager.derive_state repoPlanned "r4.1" = .ok .PLANNED
    ∧ ReleaseStateManager.derive_state repoSnapshotNoMeta "r4.1" = .ok .SNAPSHOT_ACTIVE := by
  constructor
  · have h := (derive_state_no_tag_cases repoPlanned "r4.1" rfl).2 rfl rfl
    exact h.trans rfl
  · have hbne : repoSnapshotNoMeta.listBranches
        (config.snapshotBranchPfx ++ "r4.1" ++ "-*") ≠ [] := by
      intro h0
      have h1 : [Branch.mk "release-snapshot/r4.1-abc1234" "cafe1234"] = ([] : List Branch) :=
        (rfl : repoSnapshotNoMeta.listBranches
            (config.snapshotBranchPfx ++ "r4.1" ++ "-*")
          = [Branch.mk "release-snapshot/r4.1-abc1234" "cafe1234"]).symm.trans h0
      exact List.noConfusion h1
    have h := (derive_state_no_tag_cases repoSnapshotNoMeta "r4.1" rfl).1 hbne
    exact h.trans rfl

theorem splitOnC_of_not_mem (sep : Char) (l : List Char) (h : sep ∉ l) :
    splitOnC sep l = [l] := by
  induction l with
  | nil => rfl
  | cons c cs ih =>
    have hc : ¬ c = sep := fun he => h (he ▸ List.mem_cons_self c cs)
    have hcs : sep ∉ cs := fun hm => h (List.mem_cons_of_mem c hm)
    simp [splitOnC, hc, ih hcs]

theorem splitOnC_append (sep : Char) (a b : List Char) (h : sep ∉ a) :
    splitOnC sep (a ++ sep :: b) = a :: splitOnC sep b := by
  induction a with
  | nil => simp [splitOnC]
  | cons c cs ih =>
    have hc : ¬ c = sep := fun he => h (he ▸ List.mem_cons_self c cs)
    have hcs : sep ∉ cs := fun hm => h (List.mem_cons_of_mem c hm)
    have := ih hcs
    simp only [List.cons_append, splitOnC, hc, if_false, List.append_eq, this]

theorem not_mem_of_all_pred {p : Char → Bool} {l : List Char} (h : l.all p = true)
    {c : Char} (hc : p c = false) : c ∉ l := by
  intro hm
  have := List.all_eq_true.mp h c hm
  rw [hc] at this
  cases this

theorem digitChar_isDigit {k : Nat} (h : k < 10) : (digitChar k).isDigit = true := by
  interval_cases k <;> decide

theorem digitChar_val {k : Nat} (h : k < 10) : (digitChar k).toNat - 48 = k := by
  interval_cases k <;> decide

theorem digitsVal_append_one (l : List Char) (c : Char) :
    digitsVal (l ++ [c]) = 10 * digitsVal l + (c.toNat - 48) := by
  simp [digitsVal, List.foldl_append]

theorem natDigitsF_spec : ∀ (f n : Nat), n < f →
    natDigitsF f n ≠ [] ∧ (natDigitsF f n).all Char.isDigit = true
      ∧ digitsVal (natDigitsF f n) = n := by
  intro f
  induction f with
  | zero => intro n hn; omega
  | succ f ih =>
    intro n hn
    by_cases h10 : n < 10
    · refine ⟨by simp [natDigitsF, h10], ?_, ?_⟩
      · simp [natDigitsF, h10, digitChar_isDigit h10]
      · simp [natDigitsF, h10, digitsVal, digitChar_val h10]
    · have hpos : 0 < n := by omega
      have hdivlt : n / 10 < n := Nat.div_lt_self hpos (by omega)
      have hdivf : n / 10 < f := by omega
      obtain ⟨hne, hall, hval⟩ := ih (n / 10) hdivf
      have hstep : natDigitsF (f + 1) n
          = natDigitsF f (n / 10) ++ [digitChar (n % 10)] := by
        simp [natDigitsF, h10]
      have hmod : n % 10 < 10 := Nat.mod_lt n (by omega)
      refine ⟨by simp [hstep], ?_, ?_⟩
      · simp [hstep, List.all_append, hall, digitChar_isDigit hmod]
      · rw [hstep, digitsVal_append_one, hval, digitChar_val hmod]
        exact Nat.div_add_mod n 10

theorem natDigits_ne_nil (n : Nat) : natDigitsF (n + 1) n ≠ [] :=
  (natDigitsF_spec (n + 1) n (Nat.lt_succ_self n)).1

theorem natDigits_all_digit (n : Nat) : (natDigitsF (n + 1) n).all Char.isDigit = true :=
  (natDigitsF_spec (n + 1) n (Nat.lt_succ_self n)).2.1

theorem digitsVal_natDigits (n : Nat) : digitsVal (natDigitsF (n + 1) n) = n :=
  (natDigitsF_spec (n + 1) n (Nat.lt_succ_self n)).2.2

theorem natDigits_inj {a b : Nat} (h : natDigitsF (a + 1) a = natDigitsF (b + 1) b) :
    a = b := by
  have := digitsVal_natDigits a
  rw [h, digitsVal_natDigits b] at this
  omega

theorem isDigits_natDigits (n : Nat) : isDigits (natDigitsF (n + 1) n) = true := by
  have h1 := natDigits_ne_nil n
  have h2 := natDigits_all_digit n
  simp [isDigits, h2]
  cases hl : natDigitsF (n + 1) n with
  | nil => exact absurd hl h1
  | cons d t => simp

theorem dot_not_mem_natDigits (n : Nat) : '.' ∉ natDigitsF (n + 1) n :=
  not_mem_of_all_pred (natDigits_all_digit n) (by decide)

theorem dash_not_mem_natDigits (n : Nat) : '-' ∉ natDigitsF (n + 1) n :=
  not_mem_of_all_pred (natDigits_all_digit n) (by decide)

theorem all_lower_of_isLowerWord {l : List Char} (h : isLowerWord l = true) :
    l.all Char.isLower = true := by
  simp only [isLowerWord, Bool.and_eq_true] at h
  exact h.2

theorem dot_not_mem_lower {l : List Char} (h : isLowerWord l = true) : '.' ∉ l :=
  not_mem_of_all_pred (all_lower_of_isLowerWord h) (by decide)

theorem dash_not_mem_lower {l : List Char} (h : isLowerWord l = true) : '-' ∉ l :=
  not_mem_of_all_pred (all_lower_of_isLowerWord h) (by decide)

theorem matchSemverGroups_digits (a b c : Nat) :
    matchSemverGroups (natDigitsF (a + 1) a
        ++ '.' :: (natDigitsF (b + 1) b ++ '.' :: natDigitsF (c + 1) c))
      = some (natDigitsF (a + 1) a, natDigitsF (b + 1) b, natDigitsF (c + 1) c) := by
  have hsplit : splitOnC '.' (natDigitsF (a + 1) a
      ++ '.' :: (natDigitsF (b + 1) b ++ '.' :: natDigitsF (c + 1) c))
      = [natDigitsF (a + 1) a, natDigitsF (b + 1) b, natDigitsF (c + 1) c] := by
    rw [splitOnC_append '.' _ _ (dot_not_mem_natDigits a),
      splitOnC_append '.' _ _ (dot_not_mem_natDigits b),
      splitOnC_of_not_mem '.' _ (dot_not_mem_natDigits c)]
  simp [matchSemverGroups, hsplit, isDigits_natDigits]

theorem matchPre_st {st : List Char} (hst : isLowerWord st = true) (e : Nat) :
    matchPre (st ++ '.' :: natDigitsF (e + 1) e) = some (st, natDigitsF (e + 1) e) := by
  have hsplit : splitOnC '.' (st ++ '.' :: natDigitsF (e + 1) e)
      = [st, natDigitsF (e + 1) e] := by
    rw [splitOnC_append '.' _ _ (dot_not_mem_lower hst),
      splitOnC_of_not_mem '.' _ (dot_not_mem_natDigits e)]
  simp [matchPre, hsplit, hst, isDigits_natDigits]

theorem dash_not_mem_core (a b c : Nat) :
    '-' ∉ (natDigitsF (a + 1) a
      ++ '.' :: (natDigitsF (b + 1) b ++ '.' :: natDigitsF (c + 1) c)) := by
  intro hm
  simp only [List.mem_append, List.mem_cons] at hm
  rcases hm with h | h | h
  · exact dash_not_mem_natDigits a h
  · cases h
  · rcases h with h | h | h
    · exact dash_not_mem_natDigits b h
    · cases h
    · exact dash_not_mem_natDigits c h

theorem dash_not_mem_pre {st : List Char} (hst : isLowerWord st = true) (e : Nat) :
    '-' ∉ (st ++ '.' :: natDigitsF (e + 1) e) := by
  intro hm
  simp only [List.mem_append, List.mem_cons] at hm
  rcases hm with h | h | h
  · exact dash_not_mem_lower hst h
  · cases h
  · exact dash_not_mem_natDigits e h

theorem regexFull_render (a b c e : Nat) {st : List Char} (hst : isLowerWord st = true) :
    regexFull ((natDigitsF (a + 1) a
        ++ '.' :: (natDigitsF (b + 1) b ++ '.' :: natDigitsF (c + 1) c))
      ++ '-' :: (st ++ '.' :: natDigitsF (e + 1) e))
      = some (natDigitsF (a + 1) a, natDigitsF (b + 1) b, natDigitsF (c + 1) c,
          some (st, natDigitsF (e + 1) e)) := by
  have hsplit : splitOnC '-' ((natDigitsF (a + 1) a
        ++ '.' :: (natDigitsF (b + 1) b ++ '.' :: natDigitsF (c + 1) c))
      ++ '-' :: (st ++ '.' :: natDigitsF (e + 1) e))
      = [natDigitsF (a + 1) a ++ '.' :: (natDigitsF (b + 1) b ++ '.' :: natDigitsF (c + 1) c),
         st ++ '.' :: natDigitsF (e + 1) e] := by
    rw [splitOnC_append '-' _ _ (dash_not_mem_core a b c),
      splitOnC_of_not_mem '-' _ (dash_not_mem_pre hst e)]
  unfold regexFull
  rw [hsplit]
  dsimp only
  rw [matchSemverGroups_digits a b c, matchPre_st hst e]

theorem regexVP_render (a b c e : Nat) {st : List Char} (hst : isLowerWord st = true) :
    regexVP ((natDigitsF (a + 1) a
        ++ '.' :: (natDigitsF (b + 1) b ++ '.' :: natDigitsF (c + 1) c))
      ++ '-' :: (st ++ '.' :: natDigitsF (e + 1) e))
      = some (natDigitsF (a + 1) a
          ++ '.' :: (natDigitsF (b + 1) b ++ '.' :: natDigitsF (c + 1) c),
          st, natDigitsF (e + 1) e) := by
  have hsplit : splitOnC '-' ((natDigitsF (a + 1) a
        ++ '.' :: (natDigitsF (b + 1) b ++ '.' :: natDigitsF (c + 1) c))
      ++ '-' :: (st ++ '.' :: natDigitsF (e + 1) e))
      = [natDigitsF (a + 1) a ++ '.' :: (natDigitsF (b + 1) b ++ '.' :: natDigitsF (c + 1) c),
         st ++ '.' :: natDigitsF (e + 1) e] := by
    rw [splitOnC_append '-' _ _ (dash_not_mem_core a b c),
      splitOnC_of_not_mem '-' _ (dash_not_mem_pre hst e)]
  unfold regexVP
  rw [hsplit]
  dsimp only
  rw [matchSemverGroups_digits a b c, matchPre_st hst e]

theorem renderVer_data (a b c : Nat) :
    (renderVer a b c).data = natDigitsF (a + 1) a
      ++ '.' :: (natDigitsF (b + 1) b ++ '.' :: natDigitsF (c + 1) c) := by
  show (natStr a ++ "." ++ natStr b ++ "." ++ natStr c).data = _
  simp [natStr]

theorem urlArg_data (a b c : Nat) (st : String) :
    (renderVer a b c ++ "-" ++ st ++ ".1").data
      = (natDigitsF (a + 1) a
          ++ '.' :: (natDigitsF (b + 1) b ++ '.' :: natDigitsF (c + 1) c))
        ++ '-' :: (st.data ++ '.' :: natDigitsF (1 + 1) 1) := by
  show ((renderVer a b c ++ "-" ++ st ++ ".1").data : List Char) = _
  have h1 : (renderVer a b c ++ "-" ++ st ++ ".1").data
      = (renderVer a b c).data ++ "-".data ++ st.data ++ ".1".data := rfl
  rw [h1, renderVer_data]
  simp
  rfl

theorem renderPre_data (a b c : Nat) (st : String) (e : Nat) :
    (renderPre a b c st e).data
      = (natDigitsF (a + 1) a
          ++ '.' :: (natDigitsF (b + 1) b ++ '.' :: natDigitsF (c + 1) c))
        ++ '-' :: (st.data ++ '.' :: natDigitsF (e + 1) e) := by
  have h1 : (renderPre a b c st e).data
      = (renderVer a b c).data ++ "-".data ++ st.data ++ ".".data
        ++ (natStr e).data := rfl
  rw [h1, renderVer_data]
  simp [natStr]

theorem strMk_data (s : String) : String.mk s.data = s := rfl

theorem render_ne_wip (a b c : Nat) (st : String) :
    renderVer a b c ++ "-" ++ st ++ ".1" ≠ "wip" := by
  intro h
  have hd := congrArg String.data h
  rw [urlArg_data] at hd
  obtain ⟨d, t, hdg⟩ := List.exists_cons_of_ne_nil (natDigits_ne_nil a)
  rw [hdg] at hd
  have hw : ("wip" : String).data = ['w', 'i', 'p'] := rfl
  rw [hw] at hd
  have hd2 : d :: (t ++ '.' :: (natDigitsF (b + 1) b ++ '.' :: natDigitsF (c + 1) c)
      ++ '-' :: (st.data ++ '.' :: natDigitsF (1 + 1) 1)) = ['w', 'i', 'p'] := hd
  have hdw : d = 'w' := (List.cons.inj hd2).1
  have hmem : d ∈ natDigitsF (a + 1) a := hdg ▸ List.mem_cons_self d t
  have hdig : d.isDigit = true := List.all_eq_true.mp (natDigits_all_digit a) d hmem
  rw [hdw] at hdig
  cases hdig

theorem url_of_render (m mi p : Nat) {st : String} (hst : isLowerWord st.data = true) :
    calculate_url_version (renderVer m mi p ++ "-" ++ st ++ ".1")
      = (if m = 0 then "v0." ++ natStr mi else "v" ++ natStr m) ++ st ++ "1" := by
  unfold calculate_url_version
  rw [if_neg (render_ne_wip m mi p st)]
  rw [urlArg_data, regexFull_render m mi p 1 hst]
  dsimp only
  rw [digitsVal_natDigits m]
  rfl

theorem v0_ne_vmajor {mi m2 : Nat} {st : String} (hst : isLowerWord st.data = true)
    (h : 'v' :: '0' :: '.' :: ((natDigitsF (mi + 1) mi ++ st.data) ++ ['1'])
       = 'v' :: ((natDigitsF (m2 + 1) m2 ++ st.data) ++ ['1'])) : False := by
  obtain ⟨d, t, hdg⟩ := List.exists_cons_of_ne_nil (natDigits_ne_nil m2)
  rw [hdg] at h
  have h4 : '0' :: '.' :: ((natDigitsF (mi + 1) mi ++ st.data) ++ ['1'])
      = d :: ((t ++ st.data) ++ ['1']) := (List.cons.inj h).2
  have h5 : '.' :: ((natDigitsF (mi + 1) mi ++ st.data) ++ ['1'])
      = (t ++ st.data) ++ ['1'] := (List.cons.inj h4).2
  have hdotmem : '.' ∈ (t ++ st.data) ++ ['1'] := by
    rw [← h5]
    exact List.mem_cons_self '.' _
  rcases List.mem_append.mp hdotmem with hm | hm
  · rcases List.mem_append.mp hm with hm2 | hm2
    · have hallt : t.all Char.isDigit = true := by
        have hall := natDigits_all_digit m2
        rw [hdg] at hall
        simp only [List.all_cons, Bool.and_eq_true] at hall
        exact hall.2
      have := List.all_eq_true.mp hallt '.' hm2
      cases this
    · exact absurd hm2 (dot_not_mem_lower hst)
  · simp at hm

theorem url_eq_iff (m1 mi1 m2 mi2 : Nat) {st : String}
    (hst : isLowerWord st.data = true) :
    ((if m1 = 0 then "v0." ++ natStr mi1 else "v" ++ natStr m1) ++ st ++ "1"
      = (if m2 = 0 then "v0." ++ natStr mi2 else "v" ++ natStr m2) ++ st ++ "1")
    ↔ (m1 = m2 ∧ (m1 = 0 → mi1 = mi2)) := by
  constructor
  · intro h
    have hd := congrArg String.data h
    by_cases h1 : m1 = 0 <;> by_cases h2 : m2 = 0
    · subst h1
      subst h2
      rw [if_pos rfl, if_pos rfl] at hd
      refine ⟨rfl, fun _ => ?_⟩
      have hd2 : 'v' :: '0' :: '.' :: ((natDigitsF (mi1 + 1) mi1 ++ st.data) ++ ['1'])
          = 'v' :: '0' :: '.' :: ((natDigitsF (mi2 + 1) mi2 ++ st.data) ++ ['1']) := hd
      have hd3 := (List.cons.inj (List.cons.inj (List.cons.inj hd2).2).2).2
      exact natDigits_inj
        (List.append_cancel_right (List.append_cancel_right hd3))
    · exfalso
      subst h1
      rw [if_pos rfl, if_neg h2] at hd
      have hd2 : 'v' :: '0' :: '.' :: ((natDigitsF (mi1 + 1) mi1 ++ st.data) ++ ['1'])
          = 'v' :: ((natDigitsF (m2 + 1) m2 ++ st.data) ++ ['1']) := hd
      exact v0_ne_vmajor hst hd2
    · exfalso
      subst h2
      rw [if_neg h1, if_pos rfl] at hd
      have hd2 : 'v' :: '0' :: '.' :: ((natDigitsF (mi2 + 1) mi2 ++ st.data) ++ ['1'])
          = 'v' :: ((natDigitsF (m1 + 1) m1 ++ st.data) ++ ['1']) := hd.symm
      exact v0_ne_vmajor hst hd2
    · rw [if_neg h1, if_neg h2] at hd
      refine ⟨?_, fun h0 => absurd h0 h1⟩
      have hd2 : 'v' :: ((natDigitsF (m1 + 1) m1 ++ st.data) ++ ['1'])
          = 'v' :: ((natDigitsF (m2 + 1) m2 ++ st.data) ++ ['1']) := hd
      have hd3 := (List.cons.inj hd2).2
      exact natDigits_inj
        (List.append_cancel_right (List.append_cancel_right hd3))
  · rintro ⟨hm, hmi⟩
    subst hm
    by_cases h1 : m1 = 0
    · rw [hmi h1]
    · rw [if_neg h1, if_neg h1]

/-- Claim C1: for every existing released version maj1.min1.pat1-st.e and
every non-public target maj2.min2.pat2 with the same status token st,
`_parse_extension` counts the existing extension toward the target's
namespace exactly when the two versions render to the same URL version
base: equal majors, and additionally equal minors when the major is 0
(so 3.1.0-rc.5 collides with target 3.2.0-rc, and 0.4.0-alpha.1 collides
with 0.4.1-alpha but not with 0.5.0-alpha). -/
theorem parse_extension_counts_iff_url_collision
    (maj1 min1 pat1 e maj2 min2 pat2 : Nat) (st : String)
    (hst : isLowerWord st.data = true) :
    VersionCalculator.parse_extension (renderPre maj1 min1 pat1 st e)
        (renderVer maj2 min2 pat2) st
      = if maj1 = maj2 ∧ (maj1 = 0 → min1 = min2) then some e else none := by
  unfold VersionCalculator.parse_extension
  rw [renderPre_data, regexVP_render maj1 min1 pat1 e hst]
  dsimp only
  rw [strMk_data]
  rw [if_neg (show ¬ (st ≠ st) from fun hne => hne rfl)]
  have hmk : String.mk (natDigitsF (maj1 + 1) maj1
      ++ '.' :: (natDigitsF (min1 + 1) min1 ++ '.' :: natDigitsF (pat1 + 1) pat1))
      = renderVer maj1 min1 pat1 := by
    rw [← renderVer_data]
  rw [hmk]
  rw [url_of_render maj1 min1 pat1 hst, url_of_render maj2 min2 pat2 hst]
  rw [digitsVal_natDigits e]
  by_cases hcond : (maj1 = maj2 ∧ (maj1 = 0 → min1 = min2))
  · rw [if_pos ((url_eq_iff maj1 min1 maj2 min2 hst).mpr hcond), if_pos hcond]
  · rw [if_neg (fun heq => hcond ((url_eq_iff maj1 min1 maj2 min2 hst).mp heq)),
      if_neg hcond]

/-- Witness for C1 at the claim's instances. -/
theorem parse_extension_counts_iff_url_collision_witness :
    VersionCalculator.parse_extension "3.1.0-rc.5" "3.2.0" "rc" = some 5
    ∧ VersionCalculator.parse_extension "0.4.0-alpha.1" "0.4.1" "alpha" = some 1
    ∧ VersionCalculator.parse_extension "0.4.0-alpha.1" "0.5.0" "alpha" = none := by
  refine ⟨?_, ?_, ?_⟩
  · have h := parse_extension_counts_iff_url_collision 3 1 0 5 3 2 0 "rc" (by decide)
    exact h.trans (by decide)
  · have h := parse_extension_counts_iff_url_collision 0 4 0 1 0 4 1 "alpha" (by decide)
    exact h.trans (by decide)
  · have h := parse_extension_counts_iff_url_collision 0 4 0 1 0 5 0 "alpha" (by decide)
    exact h.trans (by decide)
